import Mathlib

set_option maxRecDepth 8000

/-!
Verification of the intent-routing and response-synthesis layer of a
conversational farm-advisory backend.

The development shallowly embeds the decision core of the backend:
the orchestrator (`process_query`, `_analyze_intent`, `_is_comprehensive_query`,
`_synthesize_response`, `_generate_suggestions`, `_get_error_response`),
the chat endpoint (`send_message`), the LLM fallback wrapper
(`get_krishi_mitra_response`, `_process_for_voice`, `_detect_intent`),
the Finance advisor (`process`, `_analyze_finance_query`,
`_handle_debt_forecast`, `_calculate_debt_forecast`, ...) and the
Agronomy advisor (`process`, `_analyze_agronomy_query`,
`_handle_crop_recommendation`, `_get_suitable_crops`, `_get_current_season`, ...).

Numbers: the source uses Python ints and floats; monetary and tabular
quantities are embedded as rationals.  So that every definition can be
evaluated inside the kernel, rational arithmetic is spelled with `mkRat`
(`qAdd`, `qMul`, ...); bridge lemmas below prove these equal Mathlib's
field operations on `ℚ`.  Substring tests (Python's `keyword in text`)
are embedded as contiguous-substring checks on the character lists.
-/

/-! ## Kernel-computable rational arithmetic -/

/-- Addition on `ℚ`, spelled so the kernel can evaluate it. -/
def qAdd (a b : ℚ) : ℚ := mkRat (a.num * b.den + b.num * a.den) (a.den * b.den)

/-- Multiplication on `ℚ`, spelled so the kernel can evaluate it. -/
def qMul (a b : ℚ) : ℚ := mkRat (a.num * b.num) (a.den * b.den)

/-- Negation on `ℚ`, spelled so the kernel can evaluate it. -/
def qNeg (a : ℚ) : ℚ := mkRat (-a.num) a.den

/-- Subtraction on `ℚ`. -/
def qSub (a b : ℚ) : ℚ := qAdd a (qNeg b)

/-- Division on `ℚ` (Python `/` on numbers; division by zero never occurs on
the evaluated paths below). -/
def qDiv (a b : ℚ) : ℚ :=
  if b.num < 0 then mkRat (-(a.num * b.den)) (a.den * b.num.natAbs)
  else mkRat (a.num * b.den) (a.den * b.num.natAbs)

/-- Python `min` on two numbers (returns the first argument on ties). -/
def pyMin (a b : ℚ) : ℚ := if a ≤ b then a else b

/-! ## Python string primitives -/

/-- Python `str.lower` (embedded as per-character lowering; the keyword
lists below are ASCII, where the two agree). -/
def pyLower (s : String) : String := ⟨s.data.map Char.toLower⟩

/-- Python `needle in hay` on character lists: `needle` occurs as a
contiguous substring of `hay` (the empty needle always occurs). -/
def listContainsSub (hay needle : List Char) : Bool :=
  (List.range (hay.length + 1)).any fun i => needle.isPrefixOf (hay.drop i)

/-- Python `needle in hay` for `String`s. -/
def strContains (hay needle : String) : Bool :=
  listContainsSub hay.data needle.data

/-- Python `any(keyword in s for keyword in keywords)`. -/
def anyKeywordIn (keywords : List String) (s : String) : Bool :=
  keywords.any fun k => strContains s k

/-- Characters removed by Python `str.strip()` (ASCII whitespace; the
requests checked below contain no exotic Unicode whitespace). -/
def pySpace (c : Char) : Bool :=
  (c == ' ') || (c == '\t') || (c == '\n') || (c == '\r') || (c == '\x0b') || (c == '\x0c')

/-- Python `str.strip()`. -/
def pyStrip (s : String) : String :=
  ⟨((s.data.dropWhile pySpace).reverse.dropWhile pySpace).reverse⟩

/-- Python `int()` truncation toward zero. -/
def pyInt (q : ℚ) : Int := q.num.tdiv q.den

/-- Python `s.split(sep)` on character lists, fuelled (the fuel is at least
the length of the remaining input plus one, so it never runs out). -/
def pySplitAux (sep : List Char) : Nat → List Char → List Char → List (List Char)
  | 0, remaining, acc => [acc.reverse ++ remaining]
  | Nat.succ fuel, remaining, acc =>
      if sep ≠ [] ∧ sep.isPrefixOf remaining then
        acc.reverse :: pySplitAux sep fuel (remaining.drop sep.length) []
      else
        match remaining with
        | [] => [acc.reverse]
        | c :: rest => pySplitAux sep fuel rest (c :: acc)

/-- Python `s.split(sep)` for a non-empty separator. -/
def pySplit (s sep : String) : List String :=
  (pySplitAux sep.data (s.data.length + 1) s.data []).map fun l => ⟨l⟩

/-- Python `str.title()` for the crop names rendered by the Agronomy advisor
(upper-case a letter after a non-letter, lower-case the rest). -/
def pyTitleAux : Bool → List Char → List Char
  | _, [] => []
  | atBoundary, c :: rest =>
      if c.isAlpha then
        (if atBoundary then c.toUpper else c.toLower) :: pyTitleAux false rest
      else
        c :: pyTitleAux true rest

def pyTitle (s : String) : String := ⟨pyTitleAux true s.data⟩

/-! ## Number rendering (Python `str`, `repr` and the `:,` format spec) -/

/-- Insert a thousands separator every three digits, on a reversed digit
list. -/
def commaRevAux : List Char → Nat → List Char
  | [], _ => []
  | c :: rest, k =>
      if k = 3 then ',' :: c :: commaRevAux rest 1
      else c :: commaRevAux rest (k + 1)

/-- Python `format(n, ",")` for a natural number: `35000 ↦ "35,000"`. -/
def formatCommaNat (n : Nat) : String :=
  ⟨(commaRevAux (toString n).data.reverse 0).reverse⟩

/-- Python `format(i, ",")` for an integer. -/
def formatCommaInt (i : Int) : String :=
  if i < 0 then "-" ++ formatCommaNat i.natAbs else formatCommaNat i.natAbs

/-- Decimal digits of the fractional part of `q` (`0 ≤ q < 1`), with fuel.
All fractional values rendered below terminate well within the fuel. -/
def fracDigitsAux : Nat → ℚ → List Char
  | 0, _ => []
  | Nat.succ fuel, q =>
      if q.num = 0 then []
      else
        let q10 := qMul q 10
        let d := q10.floor
        Char.ofNat (48 + d.toNat) :: fracDigitsAux fuel (qSub q10 (mkRat d 1))

/-- `str` of an integer. -/
def intStr (i : Int) : String :=
  if i < 0 then "-" ++ toString i.natAbs else toString i.natAbs

/-- Fractional part of `q` (used for `q ≥ 0`). -/
def fracPart (q : ℚ) : ℚ := qSub q (mkRat q.floor 1)

/-- The decimal digits after the point of a non-negative rational. -/
def fracStr (q : ℚ) : String := ⟨fracDigitsAux 30 (fracPart q)⟩

/-- Python `f"{q:,}"` for a value the source holds as an int when integral
(negative non-integral values would deviate from Python; none occurs). -/
def formatCommaRat (q : ℚ) : String :=
  if q.den = 1 then formatCommaInt q.num
  else formatCommaInt q.floor ++ "." ++ fracStr q

/-- Python `f"{q:,}"` for a value the source holds as a float: an integral
value renders with a trailing `".0"`. -/
def formatCommaFloat (q : ℚ) : String :=
  if q.den = 1 then formatCommaInt q.num ++ ".0" else formatCommaRat q

/-- Python `str` of a float (trailing `".0"` when integral). -/
def pyFloatStr (q : ℚ) : String :=
  if q.den = 1 then intStr q.num ++ ".0" else intStr q.floor ++ "." ++ fracStr q

/-- Python `str` of a number the source holds as an int when integral. -/
def pyNumStr (q : ℚ) : String :=
  if q.den = 1 then intStr q.num else intStr q.floor ++ "." ++ fracStr q

/-! ## Orchestrator: intent classifier (`_analyze_intent`) -/

/-- The per-advisor keyword lists of `_analyze_intent`, in declaration order. -/
def intentKeywords : List (String × List String) :=
  [("finance", ["loan", "debt", "payment", "money", "credit", "karz", "udhar", "qarz"]),
   ("agronomy", ["crop", "seed", "fertilizer", "pest", "soil", "fasal", "beej", "khad"]),
   ("market", ["price", "mandi", "sell", "buy", "rate", "bhav", "bikri"]),
   ("policy", ["subsidy", "scheme", "government", "yojana", "sarkar"]),
   ("risk", ["weather", "rain", "drought", "flood", "mausam", "baarish"])]

structure IntentAnalysis where
  involved_agents : List String
  confidence : ℚ
  primary_intent : String
deriving DecidableEq

/-- The loop of `_analyze_intent`: collect, in declaration order, every
advisor one of whose keywords occurs in the lower-cased query. -/
def matchedAgents (query : String) : List String :=
  (intentKeywords.filter fun p => anyKeywordIn p.2 (pyLower query)).map Prod.fst

/-- `_analyze_intent`: the matched advisors, an empty result falling back to
the fixed trio.  Confidence is the constant `0.8 = mkRat 8 10`;
`primary_intent` is the first involved advisor (`"general"` cannot occur,
thanks to the fallback). -/
def analyzeIntent (query : String) : IntentAnalysis :=
  let involved :=
    if matchedAgents query = [] then ["finance", "agronomy", "market"]
    else matchedAgents query
  { involved_agents := involved
    confidence := mkRat 8 10
    primary_intent := match involved with | [] => "general" | a :: _ => a }

/-! ## Orchestrator: comprehensive-query gate (`_is_comprehensive_query`) -/

/-- The keyword list of `_is_comprehensive_query`. -/
def comprehensiveKeywords : List String :=
  ["loan", "crop", "revenue", "repay", "agronomy", "market", "policy", "risk",
   "karz", "fasal", "kamai", "kisht", "kheti", "mandi", "yojana", "khatra"]

/-- `_is_comprehensive_query`. -/
def isComprehensiveQuery (query : String) : Bool :=
  anyKeywordIn comprehensiveKeywords (pyLower query)

/-! ## Orchestrator: synthesizer (`_synthesize_response`) -/

/-- `_get_default_response` (hi/en/bn/ta, default en). -/
def getDefaultResponse (language : String) : String :=
  if language = "hi" then
    "नमस्कार! मैं आपकी कृषि और वित्तीय सलाह के लिए यहाँ हूँ। कृपया अपना सवाल पूछें।"
  else if language = "bn" then
    "নমস্কার! আমি আপনার কৃষি এবং আর্থিক পরামর্শের জন্য এখানে আছি। অনুগ্রহ করে আপনার প্রশ্ন জিজ্ঞাসা করুন।"
  else if language = "ta" then
    "வணக்கம்! நான் உங்கள் விவசாயம் மற்றும் நிதி ஆலோசனைக்காக இங்கே இருக்கிறேன். தயவுசெய்து உங்கள் கேள்வியைக் கேள்வி."
  else
    "Hello! I\x27m here to help with your agriculture and financial advice. Please ask your question."

/-- The `agent_names` heading table inside `_synthesize_response`:
`agent_names.get(agent, agent)`. -/
def agentHeading (agent : String) : String :=
  if agent = "finance" then "💰 वित्तीय सलाह"
  else if agent = "agronomy" then "🌱 कृषि सलाह"
  else if agent = "market" then "📊 बाजार की जानकारी"
  else if agent = "policy" then "🏛️ सरकारी योजनाएं"
  else if agent = "risk" then "⚠️ जोखिम चेतावनी"
  else agent

/-- The fixed preamble prepended by `_synthesize_response` on the
multi-response path (a Hindi string, whatever the `language` argument). -/
def synthPreamble : String := "🌾 आपके सवाल के लिए मेरी सलाह:\n\n"

/-- `_synthesize_response`: zero responses yield the default response, a
single response passes through verbatim, several responses are concatenated
under the fixed headings after the fixed preamble.  The mapping is embedded
as an association list in insertion order (Python dicts preserve it). -/
def synthesizeResponse (responses : List (String × String)) (language : String) : String :=
  match responses with
  | [] => getDefaultResponse language
  | [(_, text)] => text
  | _ =>
      synthPreamble ++
        String.join (responses.map fun p => agentHeading p.1 ++ ":\n" ++ p.2 ++ "\n\n")

/-! ## Orchestrator: advisor fan-out (`_process_with_agents`) -/

/-- The advisor registry keys (`self.agents`), in declaration order. -/
def agentNames : List String := ["finance", "agronomy", "market", "policy", "risk"]

/-- `_process_with_agents`: call each involved advisor in order; an advisor
that raises is replaced by the fixed apology line.  The advisors are passed
as a function to `Except` (a raising Python call is `Except.error`). -/
def processWithAgents (involved : List String)
    (agentResult : String → Except String String) : List (String × String) :=
  (involved.filter fun n => agentNames.contains n).map fun n =>
    (n, match agentResult n with
        | Except.ok t => t
        | Except.error _ => "Sorry, " ++ n ++ " agent is temporarily unavailable.")

/-! ## Orchestrator: suggestions, error payload -/

/-- `_generate_suggestions` (appends per advisor in the fixed order). -/
def generateSuggestions (agentsUsed : List String) (language : String) : List String :=
  (if agentsUsed.contains "finance" then
    [if language = "hi" then "अपने कर्ज का विस्तृत विश्लेषण देखें" else "View detailed loan analysis"]
   else []) ++
  (if agentsUsed.contains "agronomy" then
    [if language = "hi" then "फसल की देखभाल के टिप्स जानें" else "Get crop care tips"]
   else []) ++
  (if agentsUsed.contains "market" then
    [if language = "hi" then "मंडी के भाव और बिक्री की सलाह लें" else "Get market prices and selling advice"]
   else []) ++
  (if agentsUsed.contains "policy" then
    [if language = "hi" then "सरकारी योजनाओं की जानकारी लें" else "Get government scheme information"]
   else []) ++
  (if agentsUsed.contains "risk" then
    [if language = "hi" then "जोखिम प्रबंधन की रणनीतियां जानें" else "Learn risk management strategies"]
   else [])

/-- The structured response of one turn.  The source builds a dict; the
comprehensive branch adds `agents_used` and `metadata` (the latter is not
read by any caller and is omitted), the fallback and error branches add
`language` (constant-equal to the request language where read). -/
structure QueryResponse where
  text : String
  intent : String
  confidence : ℚ
  agents_used : List String
  voice_ready : List String
  suggestions : List String
deriving DecidableEq

/-- `_get_error_response`: the fixed localized error payload
(`error_responses.get(language, error_responses["en"])`). -/
def getErrorResponse (language : String) : QueryResponse :=
  if language = "hi" then
    { text := "माफ़ करें, अभी कुछ तकनीकी समस्या है। कृपया कुछ देर बाद फिर से कोशिश करें।"
      intent := "error"
      confidence := 0
      agents_used := []
      voice_ready := ["माफ़ करें, अभी कुछ तकनीकी समस्या है।", "कृपया कुछ देर बाद फिर से कोशिश करें।"]
      suggestions := [] }
  else
    { text := "Sorry, there\x27s a technical issue right now. Please try again later."
      intent := "error"
      confidence := 0
      agents_used := []
      voice_ready := ["Sorry, there\x27s a technical issue right now.", "Please try again later."]
      suggestions := [] }

/-! ## LLM fallback service (`openai_service`) -/

/-- `_process_for_voice`: split on sentence boundaries (`". "`), then split
any chunk longer than 100 characters on `", "`. -/
def processForVoice (text : String) : List String :=
  let sentences := pySplit text ". "
  sentences.foldl
    (fun acc s => if 100 < s.data.length then acc ++ pySplit s ", " else acc ++ [s]) []

/-- The keyword table of `_detect_intent`, in declaration order. -/
def openaiIntentKeywords : List (String × List String) :=
  [("crop_advice", ["फसल", "बीज", "खाद", "कीट", "crop", "seed", "fertilizer"]),
   ("loan_help", ["ऋण", "कर्ज", "पैसा", "loan", "money", "credit"]),
   ("market_info", ["मंडी", "भाव", "बिक्री", "market", "price", "sell"]),
   ("weather", ["मौसम", "बारिश", "weather", "rain"]),
   ("government", ["सरकार", "योजना", "सब्सिडी", "government", "scheme"])]

/-- `_detect_intent`: first table row with a keyword in the lower-cased
query, else `"general_inquiry"`. -/
def detectIntent (query : String) : String :=
  let queryLower := pyLower query
  match openaiIntentKeywords.find? fun p => anyKeywordIn p.2 queryLower with
  | some p => p.1
  | none => "general_inquiry"

/-- `_generate_suggestions` of the LLM fallback service. -/
def openaiSuggestions (language : String) : List String :=
  if language = "hi" then
    ["अपनी फसल के बारे में और जानें", "मंडी भाव की जानकारी लें",
     "सरकारी योजनाओं के बारे में पूछें", "मौसम की जानकारी लें"]
  else
    ["Learn more about your crops", "Get market price information",
     "Ask about government schemes", "Get weather information"]

/-- `_get_fallback_response` of the LLM fallback service. -/
def getFallbackResponse (language : String) : QueryResponse :=
  if language = "hi" then
    { text := "माफ़ करें, अभी मैं आपकी मदद नहीं कर पा रहा हूं। कृपया कुछ देर बाद फिर से कोशिश करें।"
      intent := "error"
      confidence := 0
      agents_used := []
      voice_ready := ["माफ़ करें, अभी मैं आपकी मदद नहीं कर पा रहा हूं।", "कृपया कुछ देर बाद फिर से कोशिश करें।"]
      suggestions := [] }
  else
    { text := "Sorry, I\x27m unable to help you right now. Please try again later."
      intent := "error"
      confidence := 0
      agents_used := []
      voice_ready := ["Sorry, I\x27m unable to help you right now.", "Please try again later."]
      suggestions := [] }

/-- `get_krishi_mitra_response`: the network call is passed in as an
`Except` (`Except.ok` carries the completion text); a successful call is
post-processed for voice, a failure yields the fixed fallback payload.
`confidence` is the constant `0.95 = mkRat 95 100`. -/
def getKrishiMitraResponse (llmResult : Except String String)
    (query language : String) : QueryResponse :=
  match llmResult with
  | Except.ok aiResponse =>
      { text := aiResponse
        intent := detectIntent query
        confidence := mkRat 95 100
        agents_used := []
        voice_ready := processForVoice aiResponse
        suggestions := openaiSuggestions language }
  | Except.error _ => getFallbackResponse language

/-! ## Orchestrator: `process_query` -/

/-- The body of `process_query` (the code inside its `try`): analyze intent,
then either fan out to the advisors named by the intent analysis and
synthesize (comprehensive query), or delegate the turn to the LLM fallback
service.  The advisor calls and the LLM call are passed in as functions;
the mock user context is a constant and is closed over by `agentResult`. -/
def processQuery (agentResult : String → Except String String)
    (llmResult : Except String String) (query language : String) : QueryResponse :=
  let intentAnalysis := analyzeIntent query
  if isComprehensiveQuery query then
    let agentResponses := processWithAgents intentAnalysis.involved_agents agentResult
    let synthesized := synthesizeResponse agentResponses language
    { text := synthesized
      intent := intentAnalysis.primary_intent
      confidence := intentAnalysis.confidence
      agents_used := intentAnalysis.involved_agents
      voice_ready := [synthesized]
      suggestions := generateSuggestions intentAnalysis.involved_agents language }
  else
    getKrishiMitraResponse llmResult query language

/-- The `try`/`except` of `process_query`: any exception escaping the
pipeline is converted into the fixed localized error payload. -/
def processQueryTop (pipeline : Except String QueryResponse) (language : String) :
    QueryResponse :=
  match pipeline with
  | Except.ok r => r
  | Except.error _ => getErrorResponse language

/-! ## Chat endpoint (`send_message`) -/

/-- A Python exception as seen by the endpoint handler: either a FastAPI
`HTTPException` (carrying a status and detail) or any other exception. -/
inductive PyExc where
  | http (statusCode : Nat) (detail : String)
  | other (msg : String)
deriving DecidableEq

/-- The HTTP response of the chat endpoint (status plus `ChatResponse`
payload). -/
structure ChatHTTPResponse where
  status : Nat
  text : String
  language : String
  confidence : ℚ
  voice_ready : List String
  intent : String
  suggestions : List String
deriving DecidableEq

/-- The fixed fallback `ChatResponse` returned by the endpoint's own
`except Exception` handler (HTTP status 200). -/
def chatExceptFallback (language : String) : ChatHTTPResponse :=
  { status := 200
    text := "माफ़ करें, अभी कुछ तकनीकी समस्या है। कृपया कुछ देर बाद फिर से कोशिश करें।"
    language := language
    confidence := 0
    voice_ready := ["माफ़ करें, अभी कुछ तकनीकी समस्या है। कृपया कुछ देर बाद फिर से कोशिश करें।"]
    intent := "error"
    suggestions := ["फिर से कोशिश करें", "अन्य सवाल पूछें"] }

/-- The body of `send_message` (the code inside its `try`): an empty
stripped message raises `HTTPException(400, "Message cannot be empty")`;
otherwise the orchestrator result (always a dict with a `text` key) is
wrapped into a `ChatResponse` with HTTP 200 and hard-coded
`confidence=0.95`.  An exception raised by the orchestrator call would
propagate (`Except.error`). -/
def sendMessageBody (orchestratorResult : Except String QueryResponse)
    (message language : String) : Except PyExc ChatHTTPResponse :=
  if pyStrip message = "" then
    Except.error (PyExc.http 400 "Message cannot be empty")
  else
    match orchestratorResult with
    | Except.ok r =>
        Except.ok
          { status := 200
            text := r.text
            language := language
            confidence := mkRat 95 100
            voice_ready := r.voice_ready
            intent := r.intent
            suggestions := r.suggestions }
    | Except.error e => Except.error (PyExc.other e)

/-- `send_message`: its trailing `except Exception` catches every exception
raised in the body — including the `HTTPException(400)` the body itself
raised, since `fastapi.HTTPException` subclasses `Exception` — and returns
the fixed fallback `ChatResponse` with HTTP 200. -/
def sendMessage (orchestratorResult : Except String QueryResponse)
    (message language : String) : ChatHTTPResponse :=
  match sendMessageBody orchestratorResult message language with
  | Except.ok r => r
  | Except.error _ => chatExceptFallback language

/-! ## User context (the orchestrator's `_get_user_context` mock) -/

structure Loan where
  amount : ℚ
  interest_rate : ℚ
  remaining : ℚ
  loanType : Option String
deriving DecidableEq

structure CropHolding where
  name : String
  area : ℚ
  stage : String
deriving DecidableEq

structure SoilHealth where
  ph : Option ℚ
  nitrogen : Option String
  soilType : Option String
deriving DecidableEq

/-- The fields of the user-context dict that the advisors read.  Optional
fields model dict keys that may be absent (`.get` with a default). -/
structure UserContext where
  user_id : String
  location : String
  current_loans : List Loan
  current_crops : List CropHolding
  soil_health : SoilHealth
  land_area : Option ℚ
deriving DecidableEq

/-- `_get_user_context`: the static mock context returned for every user. -/
def mockUserContext (user_id : String) : UserContext :=
  { user_id := user_id
    location := "Punjab"
    current_loans := [{ amount := 50000, interest_rate := mkRat 75 10, remaining := 35000, loanType := none }]
    current_crops := [{ name := "wheat", area := 5, stage := "growing" }]
    soil_health := { ph := some (mkRat 72 10), nitrogen := some "medium", soilType := none }
    land_area := none }

/-! ## Dates (for `datetime.now()`, `timedelta`, `strftime("%B %Y")`) -/

structure Date where
  year : Nat
  month : Nat
  day : Nat
deriving DecidableEq

def isLeapYear (y : Nat) : Bool :=
  (y % 4 = 0 && y % 100 ≠ 0) || y % 400 = 0

def daysInMonth (y m : Nat) : Nat :=
  if m = 2 then (if isLeapYear y then 29 else 28)
  else if m = 4 ∨ m = 6 ∨ m = 9 ∨ m = 11 then 30
  else 31

def nextDay (d : Date) : Date :=
  if d.day < daysInMonth d.year d.month then { d with day := d.day + 1 }
  else if d.month < 12 then { year := d.year, month := d.month + 1, day := 1 }
  else { year := d.year + 1, month := 1, day := 1 }

/-- `date + timedelta(days=n)` for a whole number of days. -/
def addDays : Date → Nat → Date
  | d, 0 => d
  | d, Nat.succ n => addDays (nextDay d) n

def monthName (m : Nat) : String :=
  if m = 1 then "January" else if m = 2 then "February" else if m = 3 then "March"
  else if m = 4 then "April" else if m = 5 then "May" else if m = 6 then "June"
  else if m = 7 then "July" else if m = 8 then "August" else if m = 9 then "September"
  else if m = 10 then "October" else if m = 11 then "November" else if m = 12 then "December"
  else ""

/-- `strftime("%B %Y")`. -/
def formatMonthYear (d : Date) : String := monthName d.month ++ " " ++ toString d.year

/-! ## Finance advisor -/

/-- `_analyze_finance_query`: the advisor-local sub-classifier. -/
def analyzeFinanceQuery (query : String) : String :=
  let q := pyLower query
  if anyKeywordIn ["debt", "karz", "udhar", "qarz", "free", "mukt"] q then "debt_forecast"
  else if anyKeywordIn ["loan", "credit", "karz", "udhar"] q then "loan_recommendation"
  else if anyKeywordIn ["subsidy", "yojana", "scheme", "help"] q then "subsidy_info"
  else if anyKeywordIn ["repay", "payment", "installment", "kisht"] q then "repayment_strategy"
  else "general"

/-- `sum(loan.get("remaining", 0) for loan in current_loans)`. -/
def sumRemaining (loans : List Loan) : ℚ :=
  loans.foldl (fun acc l => qAdd acc l.remaining) 0

/-- The fixed placeholder `monthly_income = 15000`. -/
def monthlyIncome : ℚ := 15000

/-- `monthly_payment = min(monthly_income * 0.4, current_debt * 0.1)`. -/
def monthlyPayment (currentDebt : ℚ) : ℚ :=
  pyMin (qMul monthlyIncome (mkRat 4 10)) (qMul currentDebt (mkRat 1 10))

/-- `months_to_freedom = current_debt / monthly_payment if monthly_payment > 0
else 0` — the division is guarded by the positivity test. -/
def monthsToFreedom (currentDebt : ℚ) : ℚ :=
  if 0 < monthlyPayment currentDebt then qDiv currentDebt (monthlyPayment currentDebt) else 0

structure DebtForecast where
  debt_free_date : String
  monthly_payment : Int
  recommendations : String
  motivational_message : String
deriving DecidableEq

/-- `_calculate_debt_forecast`.  `debt_free_date = now + timedelta(days =
months_to_freedom * 30)`; `now` is passed in as a date (the source reads the
wall clock; fractional days shift the time of day, which `strftime("%B %Y")`
ignores, so whole days are added). -/
def calculateDebtForecast (ctx : UserContext) (now : Date) : DebtForecast :=
  let currentDebt := sumRemaining ctx.current_loans
  let payment := monthlyPayment currentDebt
  let months := monthsToFreedom currentDebt
  let debtFreeDate := addDays now (qMul months 30).floor.toNat
  { debt_free_date := formatMonthYear debtFreeDate
    monthly_payment := pyInt payment
    recommendations :=
      String.intercalate " | "
        ["उच्च मूल्य वाली फसलें उगाएं (बाजरा, दालें)",
         "सरकारी सब्सिडी का लाभ उठाएं",
         "मंडी में बेहतर दाम के लिए समय चुनें"]
    motivational_message := "हर फसल आपको कर्ज मुक्ति की ओर ले जाती है" }

/-- `_get_no_debt_response`. -/
def noDebtResponse (language : String) : String :=
  if language = "hi" then
    "🎉 बधाई हो! आप कर्ज मुक्त हैं। अपनी बचत को स्मार्ट तरीके से निवेश करें।"
  else
    "🎉 Congratulations! You are debt-free. Invest your savings wisely."

/-- `_handle_debt_forecast`: zero total debt short-circuits to the no-debt
message before any division; otherwise the forecast is rendered. -/
def handleDebtForecast (ctx : UserContext) (language : String) (now : Date) : String :=
  let currentDebt := sumRemaining ctx.current_loans
  if currentDebt = 0 then noDebtResponse language
  else
    let f := calculateDebtForecast ctx now
    if language = "hi" then
      "💰 आपका कर्ज मुक्ति पूर्वानुमान:\n\n📊 वर्तमान कर्ज: ₹" ++ formatCommaRat currentDebt ++
      "\n📅 अनुमानित कर्ज मुक्ति: " ++ f.debt_free_date ++
      "\n💵 मासिक भुगतान आवश्यक: ₹" ++ formatCommaInt f.monthly_payment ++
      "\n\n🌱 सुझाव: " ++ f.recommendations ++
      "\n\n🎯 लक्ष्य: " ++ f.motivational_message
    else
      "💰 Your Debt Freedom Forecast:\n\n📊 Current Debt: ₹" ++ formatCommaRat currentDebt ++
      "\n📅 Estimated Debt-Free Date: " ++ f.debt_free_date ++
      "\n💵 Monthly Payment Needed: ₹" ++ formatCommaInt f.monthly_payment ++
      "\n\n🌱 Recommendations: " ++ f.recommendations ++
      "\n\n🎯 Goal: " ++ f.motivational_message

/-- `_handle_loan_recommendation` (the recommendation lines are built in
Hindi for both languages, as in the source). -/
def handleLoanRecommendation (ctx : UserContext) (language : String) : String :=
  let landArea := ctx.land_area.getD 0
  let recommendations :=
    (if 0 < landArea then
      ["फसल ऋण: ₹" ++ formatCommaRat (pyMin (qMul landArea 50000) 300000) ++ " (7% ब्याज)"]
     else []) ++
    (if ¬ ctx.current_loans.any (fun l => l.loanType = some "equipment") then
      ["उपकरण ऋण: ₹2,00,000 (8.5% ब्याज)"]
     else [])
  let bullets := String.intercalate "\n" (recommendations.map fun r => "• " ++ r)
  if language = "hi" then
    "💳 आपके लिए ऋण सिफारिशें:\n\n" ++ bullets ++
    "\n\n📋 आवेदन के लिए आवश्यक दस्तावेज:\n• आधार कार्ड\n• भूमि के कागजात\n• बैंक खाता\n• फोटो\n\n🏦 निकटतम बैंक या कृषि सहकारी समिति से संपर्क करें।"
  else
    "💳 Loan Recommendations for You:\n\n" ++ bullets ++
    "\n\n📋 Documents Required:\n• Aadhaar Card\n• Land Documents\n• Bank Account\n• Photos\n\n🏦 Contact nearest bank or agricultural cooperative society."

/-- The subsidy-scheme table (`self.subsidy_schemes`), reduced to the
`amount` field, the only one `_handle_subsidy_info` reads. -/
def subsidySchemes : List (String × ℚ) :=
  [("pm_kisan", 6000), ("fertilizer_subsidy", 1400), ("seed_subsidy", 500),
   ("pesticide_subsidy", 300), ("drip_irrigation_subsidy", 50000)]

/-- `_handle_subsidy_info` (the bullet lines are Hindi in both languages). -/
def handleSubsidyInfo (language : String) : String :=
  let subsidies :=
    subsidySchemes.foldl
      (fun acc p =>
        if p.1 = "pm_kisan" then acc ++ ["PM-KISAN: ₹" ++ formatCommaRat p.2 ++ " सालाना"]
        else if p.1 = "fertilizer_subsidy" then acc ++ ["खाद सब्सिडी: ₹" ++ formatCommaRat p.2 ++ " प्रति बोरी"]
        else if p.1 = "seed_subsidy" then acc ++ ["बीज सब्सिडी: ₹" ++ formatCommaRat p.2 ++ " प्रति क्विंटल"]
        else acc) []
  let bullets := String.intercalate "\n" (subsidies.map fun s => "• " ++ s)
  if language = "hi" then
    "🏛️ आपके लिए उपलब्ध सरकारी योजनाएं:\n\n" ++ bullets ++
    "\n\n📞 आवेदन के लिए:\n• कृषि विभाग कार्यालय\n• बैंक शाखा\n• ऑनलाइन पोर्टल\n\n✅ सभी छोटे और सीमांत किसानों के लिए उपलब्ध"
  else
    "🏛️ Government Schemes Available for You:\n\n" ++ bullets ++
    "\n\n📞 To Apply:\n• Agriculture Department Office\n• Bank Branch\n• Online Portal\n\n✅ Available for all small and marginal farmers"

/-- `_handle_repayment_strategy` (the strategy lines are Hindi in both
languages). -/
def handleRepaymentStrategy (ctx : UserContext) (language : String) : String :=
  if ctx.current_loans = [] then noDebtResponse language
  else
    let strategies :=
      ["फसल बिक्री से प्राप्त राशि का 60% कर्ज चुकाने में लगाएं",
       "मंडी में उच्च दाम पर बेचने का इंतजार करें",
       "सरकारी सब्सिडी का लाभ उठाकर कर्ज चुकाएं",
       "अगली फसल के लिए कम लागत वाली फसलें चुनें"]
    let bullets := String.intercalate "\n" (strategies.map fun s => "• " ++ s)
    if language = "hi" then
      "💡 कर्ज चुकाने की रणनीति:\n\n" ++ bullets ++
      "\n\n📊 प्राथमिकता क्रम:\n1. उच्च ब्याज वाले कर्ज पहले चुकाएं\n2. फसल बिक्री से तुरंत भुगतान करें\n3. नई फसल के लिए बचत रखें\n\n🎯 लक्ष्य: अगले 2 साल में कर्ज मुक्त हो जाएं"
    else
      "💡 Repayment Strategy:\n\n" ++ bullets ++
      "\n\n📊 Priority Order:\n1. Pay high-interest loans first\n2. Make immediate payment from crop sales\n3. Save for next crop season\n\n🎯 Goal: Become debt-free in next 2 years"

/-- `_handle_general_finance_query`. -/
def handleGeneralFinanceQuery (language : String) : String :=
  if language = "hi" then
    "💰 वित्तीय सलाह:\n\n• अपनी फसल का रिकॉर्ड रखें\n• बाजार के दामों पर नजर रखें\n• सरकारी योजनाओं का लाभ उठाएं\n• कर्ज को समझदारी से प्रबंधित करें\n\nक्या आप कर्ज, सब्सिडी या फसल बिक्री के बारे में जानना चाहते हैं?"
  else
    "💰 Financial Advice:\n\n• Keep records of your crops\n• Monitor market prices\n• Avail government schemes\n• Manage loans wisely\n\nDo you want to know about loans, subsidies, or crop sales?"

/-- The Finance advisor's `process`.  `now` makes the source's hidden
`datetime.now()` reads explicit.  Its handlers are total, so the advisor's
own `try`/`except` apology path is unreachable. -/
def financeProcess (query : String) (ctx : UserContext) (language : String)
    (now : Date) : String :=
  let t := analyzeFinanceQuery query
  if t = "debt_forecast" then handleDebtForecast ctx language now
  else if t = "loan_recommendation" then handleLoanRecommendation ctx language
  else if t = "subsidy_info" then handleSubsidyInfo language
  else if t = "repayment_strategy" then handleRepaymentStrategy ctx language
  else handleGeneralFinanceQuery language

/-! ## Agronomy advisor -/

/-- The fields of a `self.crops` table entry that the Agronomy advisor's
handlers read (the remaining fields — pH range, varieties, fertilizer and
pest lists — are never read by the embedded code paths). -/
structure CropData where
  season : String
  duration : Nat
  water_requirement : String
  soil_type : String
  yield_per_acre : ℚ
  market_price : ℚ
  profit_margin : ℚ
deriving DecidableEq

/-- `self.crops`, as loaded by `_load_agronomy_data`. -/
def cropsTable : List (String × CropData) :=
  [("wheat", { season := "rabi", duration := 120, water_requirement := "medium",
               soil_type := "loamy", yield_per_acre := 20, market_price := 2100,
               profit_margin := mkRat 4 10 }),
   ("rice", { season := "kharif", duration := 150, water_requirement := "high",
              soil_type := "clay", yield_per_acre := 25, market_price := 1800,
              profit_margin := mkRat 35 100 }),
   ("maize", { season := "kharif", duration := 100, water_requirement := "medium",
               soil_type := "loamy", yield_per_acre := 30, market_price := 1600,
               profit_margin := mkRat 5 10 }),
   ("cotton", { season := "kharif", duration := 180, water_requirement := "medium",
                soil_type := "sandy_loam", yield_per_acre := 8, market_price := 6500,
                profit_margin := mkRat 45 100 }),
   ("sugarcane", { season := "year_round", duration := 365, water_requirement := "high",
                   soil_type := "clay_loam", yield_per_acre := 350, market_price := 315,
                   profit_margin := mkRat 3 10 }),
   ("potato", { season := "rabi", duration := 90, water_requirement := "medium",
                soil_type := "sandy_loam", yield_per_acre := 120, market_price := 800,
                profit_margin := mkRat 55 100 })]

/-- `self.punjab_data["soil_types"]`. -/
def punjabSoilTypes : List (String × String) :=
  [("alluvial", "Most common, good for all crops"),
   ("sandy_loam", "Good for vegetables and pulses"),
   ("clay_loam", "Ideal for rice and sugarcane"),
   ("loamy", "Best for wheat and maize")]

/-- `self.seasons`, read by `_get_suitable_crops`.  `_load_agronomy_data`
assigns `self.crops`, `self.agronomy_techniques` and `self.punjab_data` but
never assigns `self.seasons`, and no other method does; the attribute does
not exist, so reading it raises `AttributeError`.  Embedded as `none`. -/
def agronomySeasons : Option (List (String × List String)) := none

/-- `_get_current_season`: derive the agricultural season from the calendar
month of the wall clock (passed in explicitly). -/
def getCurrentSeason (month : Nat) : String :=
  if month = 6 ∨ month = 7 ∨ month = 8 ∨ month = 9 then "kharif"
  else if month = 10 ∨ month = 11 ∨ month = 12 ∨ month = 1 then "rabi"
  else "zaid"

/-- `_get_suitable_crops`: filter the season's crop list down to the crops
whose `soil_type` equals the user's; an empty filter result falls back to
the whole season list.  The very first step reads `self.seasons`, which
raises (see `agronomySeasons`). -/
def getSuitableCrops (soil : SoilHealth) (season : String) :
    Except String (List String) :=
  match agronomySeasons with
  | none => Except.error "AttributeError: \x27AgronomyAgent\x27 object has no attribute \x27seasons\x27"
  | some seasonsTable =>
      let soilType := soil.soilType.getD "loamy"
      let seasonCrops := (seasonsTable.lookup season).getD []
      let suitable := seasonCrops.filter fun c =>
        ((cropsTable.lookup c).map CropData.soil_type) == some soilType
      Except.ok (if suitable = [] then seasonCrops else suitable)

structure ProfitableCrop where
  name : String
  profit_per_acre : ℚ
  data : CropData
deriving DecidableEq

/-- Stable descending insertion by key: place `x` before the first element
with a key not above `x`'s (the semantics of Python's stable
`sort(key=..., reverse=True)`). -/
def insertDescBy (key : ProfitableCrop → ℚ) (x : ProfitableCrop) :
    List ProfitableCrop → List ProfitableCrop
  | [] => [x]
  | y :: ys => if key x < key y then y :: insertDescBy key x ys else x :: y :: ys

/-- `profitable_crops.sort(key=lambda x: x["profit_per_acre"], reverse=True)`. -/
def sortDescBy (key : ProfitableCrop → ℚ) : List ProfitableCrop → List ProfitableCrop
  | [] => []
  | x :: xs => insertDescBy key x (sortDescBy key xs)

/-- One numbered crop block of the Hindi crop-recommendation message. -/
def cropLinesHi : Nat → List ProfitableCrop → String
  | _, [] => ""
  | i, c :: rest =>
      "\n" ++ toString i ++ ". " ++ pyTitle c.name ++
      "\n   💰 लाभ: ₹" ++ formatCommaFloat c.profit_per_acre ++ "/एकड़" ++
      "\n   📅 अवधि: " ++ toString c.data.duration ++ " दिन" ++
      "\n   💧 पानी: " ++ c.data.water_requirement ++
      "\n   🌾 उपज: " ++ pyNumStr c.data.yield_per_acre ++ " क्विंटल/एकड़" ++
      cropLinesHi (i + 1) rest

/-- One numbered crop block of the English crop-recommendation message. -/
def cropLinesEn : Nat → List ProfitableCrop → String
  | _, [] => ""
  | i, c :: rest =>
      "\n" ++ toString i ++ ". " ++ pyTitle c.name ++
      "\n   💰 Profit: ₹" ++ formatCommaFloat c.profit_per_acre ++ "/acre" ++
      "\n   📅 Duration: " ++ toString c.data.duration ++ " days" ++
      "\n   💧 Water: " ++ c.data.water_requirement ++
      "\n   🌾 Yield: " ++ pyNumStr c.data.yield_per_acre ++ " quintals/acre" ++
      cropLinesEn (i + 1) rest

/-- `user_context.get("land_area", 0)` as rendered (`0` for a missing key,
float representation otherwise, as in the source's mock contexts). -/
def landAreaStr (landArea : Option ℚ) : String :=
  match landArea with
  | none => "0"
  | some q => pyFloatStr q

/-- `_handle_crop_recommendation`: season from the clock, suitable crops
(raises — see `getSuitableCrops`), profitability `yield_per_acre *
market_price * profit_margin`, stable sort descending, top 3 rendered.
An empty candidate list would raise `IndexError` at the
`profitable_crops[0]` in the tips footer. -/
def handleCropRecommendation (ctx : UserContext) (language : String) (month : Nat) :
    Except String String :=
  let soilHealth := ctx.soil_health
  let currentSeason := getCurrentSeason month
  match getSuitableCrops soilHealth currentSeason with
  | Except.error e => Except.error e
  | Except.ok suitable =>
      let profitable := suitable.filterMap fun name =>
        (cropsTable.lookup name).map fun d =>
          { name := name
            profit_per_acre := qMul (qMul d.yield_per_acre d.market_price) d.profit_margin
            data := d }
      let sorted := sortDescBy (fun c => c.profit_per_acre) profitable
      match sorted with
      | [] => Except.error "IndexError: list index out of range"
      | top :: _ =>
          Except.ok <|
            if language = "hi" then
              "🌱 आपके लिए फसल सिफारिशें (" ++ currentSeason ++ " मौसम):\n\n📊 मिट्टी: " ++
              soilHealth.soilType.getD "Unknown" ++ "\n📏 जमीन: " ++ landAreaStr ctx.land_area ++
              " एकड़\n\n🏆 सर्वश्रेष्ठ फसलें:" ++ cropLinesHi 1 (sorted.take 3) ++
              "\n\n💡 सुझाव:\n• " ++ pyTitle top.name ++
              " सबसे लाभदायक है\n• बाजार के दामों पर नजर रखें\n• सरकारी सब्सिडी का लाभ उठाएं"
            else
              "🌱 Crop Recommendations for You (" ++ currentSeason ++ " season):\n\n📊 Soil: " ++
              soilHealth.soilType.getD "Unknown" ++ "\n📏 Land: " ++ landAreaStr ctx.land_area ++
              " acres\n\n🏆 Best Crops:" ++ cropLinesEn 1 (sorted.take 3) ++
              "\n\n💡 Tips:\n• " ++ pyTitle top.name ++
              " is most profitable\n• Monitor market prices\n• Avail government subsidies"

/-- `_handle_soil_health` (the pH status string is Hindi in both
languages, as in the source). -/
def handleSoilHealth (ctx : UserContext) (language : String) : String :=
  let soilHealth := ctx.soil_health
  let phValue := soilHealth.ph.getD 7
  let soilType := soilHealth.soilType.getD "loamy"
  let phStatus :=
    if 6 ≤ phValue ∧ phValue ≤ mkRat 75 10 then "अच्छा" else "सुधार की आवश्यकता"
  let soilInfo :=
    match punjabSoilTypes.lookup soilType with
    | some s => s
    | none => "\x7b\x7d"
  let phStr := match soilHealth.ph with | none => "7.0" | some q => pyNumStr q
  if language = "hi" then
    "🌱 आपकी मिट्टी की जानकारी:\n\n📊 pH स्तर: " ++ phStr ++ " (" ++ phStatus ++
    ")\n🏗️ मिट्टी का प्रकार: " ++ soilType ++ "\n💧 मिट्टी की विशेषता: " ++ soilInfo ++
    "\n\n💡 सुधार के सुझाव:\n• जैविक खाद का प्रयोग करें\n• नियमित मिट्टी परीक्षण करें\n• फसल चक्र अपनाएं\n• हरी खाद का प्रयोग करें\n\n📞 मिट्टी परीक्षण के लिए कृषि विभाग से संपर्क करें।"
  else
    "🌱 Your Soil Information:\n\n📊 pH Level: " ++ phStr ++ " (" ++ phStatus ++
    ")\n🏗️ Soil Type: " ++ soilType ++ "\n💧 Soil Characteristics: " ++ soilInfo ++
    "\n\n💡 Improvement Suggestions:\n• Use organic fertilizers\n• Get regular soil testing\n• Follow crop rotation\n• Use green manure\n\n📞 Contact agriculture department for soil testing."

/-- `_handle_farming_practices`. -/
def handleFarmingPractices (language : String) : String :=
  if language = "hi" then
    "🌾 कृषि के सर्वोत्तम तरीके:\n\n📅 समय पर बुवाई करें\n💧 सिंचाई का ध्यान रखें\n🌱 उचित फसल चक्र अपनाएं\n🐛 कीट प्रबंधन करें\n🌿 खरपतवार नियंत्रण करें\n\n💡 आधुनिक तकनीकें:\n• ड्रिप सिंचाई\n• जैविक खेती\n• प्रेसिजन फार्मिंग\n• मल्चिंग\n\n📚 कृषि विभाग से प्रशिक्षण लें।"
  else
    "🌾 Best Farming Practices:\n\n📅 Sow at the right time\n💧 Manage irrigation properly\n🌱 Follow proper crop rotation\n🐛 Control pests\n🌿 Manage weeds\n\n💡 Modern Techniques:\n• Drip irrigation\n• Organic farming\n• Precision farming\n• Mulching\n\n📚 Get training from agriculture department."

/-- `_handle_pest_management`. -/
def handlePestManagement (language : String) : String :=
  if language = "hi" then
    "🐛 कीट प्रबंधन सलाह:\n\n🔍 नियमित निरीक्षण करें\n🌿 जैविक कीटनाशक प्रयोग करें\n🦅 प्राकृतिक शत्रुओं को बढ़ावा दें\n🌱 फसल चक्र अपनाएं\n🧪 रासायनिक कीटनाशक कम प्रयोग करें\n\n⚠️ सावधानियां:\n• कीटनाशक का सही मात्रा में प्रयोग\n• सुरक्षा उपकरण पहनें\n• फसल कटाई से पहले अंतराल रखें\n\n📞 कीट समस्या के लिए कृषि विभाग से संपर्क करें।"
  else
    "🐛 Pest Management Advice:\n\n🔍 Regular monitoring\n🌿 Use organic pesticides\n🦅 Promote natural enemies\n🌱 Follow crop rotation\n🧪 Minimize chemical pesticides\n\n⚠️ Precautions:\n• Use pesticides in correct quantity\n• Wear safety equipment\n• Maintain gap before harvest\n\n📞 Contact agriculture department for pest problems."

/-- `_handle_general_agronomy_query`. -/
def handleGeneralAgronomyQuery (language : String) : String :=
  if language = "hi" then
    "🌱 कृषि सलाह:\n\n• मिट्टी की जांच नियमित करें\n• उचित फसल चुनें\n• सिंचाई का ध्यान रखें\n• कीट प्रबंधन करें\n• बाजार के दामों पर नजर रखें\n\nक्या आप फसल, मिट्टी या कीट प्रबंधन के बारे में जानना चाहते हैं?"
  else
    "🌱 Agricultural Advice:\n\n• Get regular soil testing\n• Choose appropriate crops\n• Manage irrigation properly\n• Control pests\n• Monitor market prices\n\nDo you want to know about crops, soil, or pest management?"

/-- The Agronomy advisor's `_get_error_response`. -/
def agronomyErrorResponse (language : String) : String :=
  if language = "hi" then
    "माफ़ करें, कृषि सलाह देने में समस्या आ रही है। कृपया कुछ देर बाद फिर से कोशिश करें।"
  else
    "Sorry, there\x27s an issue providing agricultural advice. Please try again later."

/-- `_analyze_agronomy_query`: the advisor-local sub-classifier. -/
def analyzeAgronomyQuery (query : String) : String :=
  let q := pyLower query
  if anyKeywordIn ["crop", "fasal", "beej", "plant", "grow"] q then "crop_recommendation"
  else if anyKeywordIn ["soil", "mitti", "ph", "fertilizer", "khad"] q then "soil_health"
  else if anyKeywordIn ["pest", "disease", "keet", "rogi"] q then "pest_management"
  else if anyKeywordIn ["practice", "technique", "method", "tarika"] q then "farming_practices"
  else "general"

/-- The Agronomy advisor's `process`.  `month` makes the source's hidden
`datetime.now().month` read explicit.  Its `try`/`except` swallows the
`AttributeError` raised on the crop-recommendation path and substitutes the
advisor's apology; the other handlers are total. -/
def agronomyProcess (query : String) (ctx : UserContext) (language : String)
    (month : Nat) : String :=
  let t := analyzeAgronomyQuery query
  if t = "crop_recommendation" then
    match handleCropRecommendation ctx language month with
    | Except.ok s => s
    | Except.error _ => agronomyErrorResponse language
  else if t = "soil_health" then handleSoilHealth ctx language
  else if t = "farming_practices" then handleFarmingPractices language
  else if t = "pest_management" then handlePestManagement language
  else handleGeneralAgronomyQuery language

/-- The user context of end-to-end scenario 3: loamy soil, July. -/
def loamySoilContext : UserContext :=
  { user_id := "anonymous"
    location := "Punjab"
    current_loans := []
    current_crops := []
    soil_health := { ph := none, nitrogen := none, soilType := some "loamy" }
    land_area := none }

/-! # Theorems

Bridge lemmas first, then one theorem per specification claim (with a
witness or counterexample where called for). -/

theorem qAdd_eq (a b : ℚ) : qAdd a b = a + b := by
  have ha : ((a.den : ℚ)) ≠ 0 := Nat.cast_ne_zero.mpr a.den_nz
  have hb : ((b.den : ℚ)) ≠ 0 := Nat.cast_ne_zero.mpr b.den_nz
  rw [qAdd, Rat.mkRat_eq_div]
  push_cast
  conv_rhs => rw [← Rat.num_div_den a, ← Rat.num_div_den b]
  rw [div_add_div _ _ ha hb]
  ring_nf

theorem qMul_eq (a b : ℚ) : qMul a b = a * b := by
  rw [qMul, Rat.mkRat_eq_div]
  push_cast
  rw [← div_mul_div_comm, Rat.num_div_den, Rat.num_div_den]

theorem pyMin_eq (a b : ℚ) : pyMin a b = min a b := (min_def a b).symm

theorem mkRat_eight_tenths : mkRat 8 10 = 0.8 := by
  rw [Rat.mkRat_eq_div]; norm_num

theorem mkRat_ninetyfive_hundredths : mkRat 95 100 = 0.95 := by
  rw [Rat.mkRat_eq_div]; norm_num

theorem mkRat_four_tenths : mkRat 4 10 = 0.4 := by
  rw [Rat.mkRat_eq_div]; norm_num

theorem mkRat_one_tenth : mkRat 1 10 = 0.1 := by
  rw [Rat.mkRat_eq_div]; norm_num

/-- C6: for every query, `involved_agents` is non-empty, is a subsequence of
the declaration order `[finance, agronomy, market, policy, risk]`, the
confidence is the constant `0.8`, and a query matching no advisor keyword
falls back to exactly `["finance", "agronomy", "market"]`. -/
theorem analyze_intent_invariants (query : String) :
    (analyzeIntent query).involved_agents ≠ []
    ∧ List.Sublist (analyzeIntent query).involved_agents
        ["finance", "agronomy", "market", "policy", "risk"]
    ∧ (analyzeIntent query).confidence = 0.8
    ∧ ((∀ p ∈ intentKeywords, anyKeywordIn p.2 (pyLower query) = false) →
        (analyzeIntent query).involved_agents = ["finance", "agronomy", "market"]) := by
  refine ⟨?_, ?_, ?_, ?_⟩
  · by_cases h : matchedAgents query = [] <;> simp [analyzeIntent, h]
  · by_cases h : matchedAgents query = []
    · simp only [analyzeIntent, h, if_pos]
      decide
    · simp only [analyzeIntent, h, if_neg, if_false]
      have hsub : List.Sublist ((intentKeywords.filter
          fun p => anyKeywordIn p.2 (pyLower query)).map Prod.fst)
          (intentKeywords.map Prod.fst) :=
        List.Sublist.map Prod.fst (List.filter_sublist intentKeywords)
      have horder : intentKeywords.map Prod.fst =
          ["finance", "agronomy", "market", "policy", "risk"] := rfl
      rw [horder] at hsub
      exact hsub
  · simp [analyzeIntent, mkRat_eight_tenths]
  · intro hall
    have h : matchedAgents query = [] := by
      unfold matchedAgents
      rw [List.map_eq_nil_iff]
      rw [List.filter_eq_nil_iff]
      intro p hp
      simp [hall p hp]
    simp [analyzeIntent, h]

/-- C6 witness: the query `"hello"` matches no advisor keyword and receives
the fallback trio with confidence `0.8`. -/
theorem analyze_intent_invariants_witness :
    (analyzeIntent "hello").involved_agents = ["finance", "agronomy", "market"] :=
  (analyze_intent_invariants "hello").2.2.2 (by decide)

/-- C7: a singleton response mapping passes through the synthesizer verbatim
for every advisor name and every language. -/
theorem synthesize_singleton_verbatim (agent text language : String) :
    synthesizeResponse [(agent, text)] language = text := rfl

/-- C4: the comprehensive gate uses its own keyword list: `"debt"` is a
finance keyword of the intent classifier yet fails the gate, and every query
failing the gate is delegated verbatim to the LLM fallback service — the
result is the fallback response, independent of the advisors. -/
theorem finance_keyword_bypasses_gate :
    (anyKeywordIn ((List.lookup "finance" intentKeywords).getD []) (pyLower "debt") = true
      ∧ isComprehensiveQuery "debt" = false)
    ∧ ∀ (agentResult : String → Except String String) (llmResult : Except String String)
        (query language : String),
        isComprehensiveQuery query = false →
        processQuery agentResult llmResult query language
          = getKrishiMitraResponse llmResult query language := by
  refine ⟨by decide, ?_⟩
  intro agentResult llmResult query language h
  simp [processQuery, h]

/-- C4 witness: the query `"debt"` is answered by the LLM fallback response
itself, whatever the advisors would have said. -/
theorem finance_keyword_bypasses_gate_witness :
    processQuery (fun _ => Except.error "advisor raised") (Except.ok "llm reply") "debt" "hi"
      = getKrishiMitraResponse (Except.ok "llm reply") "debt" "hi" :=
  finance_keyword_bypasses_gate.2 _ _ "debt" "hi" (by decide)

/-- C5 counterexample: the synthesizer does not localize the multi-response
merge — for language `"en"` the output is byte-identical to the `"hi"`
output, begins with the fixed Hindi preamble and Hindi headings, and does
not contain the preamble the specification gives
(`"Here is my advice for your question:"`). -/
theorem synthesize_ignores_language_cex :
    synthesizeResponse [("finance", "A"), ("agronomy", "B")] "en"
        = synthesizeResponse [("finance", "A"), ("agronomy", "B")] "hi"
    ∧ strContains (synthesizeResponse [("finance", "A"), ("agronomy", "B")] "en")
        "Here is my advice for your question" = false
    ∧ synthesizeResponse [("finance", "A"), ("agronomy", "B")] "en"
        = "🌾 आपके सवाल के लिए मेरी सलाह:\n\n💰 वित्तीय सलाह:\nA\n\n🌱 कृषि सलाह:\nB\n\n" :=
  ⟨rfl, by decide, rfl⟩

/-- C5 amended: for two or more responses the synthesizer emits, for every
language value, the fixed Hindi preamble followed by each advisor's fixed
Hindi emoji heading (the advisor name itself when unrecognized), a colon and
newline, the advisor's text and a blank line, in mapping order. -/
theorem synthesize_multi_fixed_hindi (responses : List (String × String)) (language : String) :
    2 ≤ responses.length →
    synthesizeResponse responses language =
      synthPreamble ++
        String.join (responses.map fun p => agentHeading p.1 ++ ":\n" ++ p.2 ++ "\n\n") := by
  intro h
  match responses, h with
  | a :: b :: t, _ => rfl

/-- C5 amended witness: two advisor responses under language `"en"`. -/
theorem synthesize_multi_fixed_hindi_witness :
    synthesizeResponse [("finance", "X"), ("market", "Y")] "en" =
      synthPreamble ++
        String.join ([("finance", "X"), ("market", "Y")].map
          fun p => agentHeading p.1 ++ ":\n" ++ p.2 ++ "\n\n") :=
  synthesize_multi_fixed_hindi [("finance", "X"), ("market", "Y")] "en" (by decide)

/-- C2: a chat-send whose message strips to empty does reach the
`HTTPException(400, "Message cannot be empty")` raise inside the handler
body, but the handler's own `except Exception` catches that exception
(`fastapi.HTTPException` subclasses `Exception`), so the endpoint actually
responds HTTP 200 with the fallback payload — for any orchestrator result,
for the empty and the whitespace-only message alike. -/
theorem empty_message_returns_200_bug (orchestratorResult : Except String QueryResponse) :
    sendMessageBody orchestratorResult "" "hi"
        = Except.error (PyExc.http 400 "Message cannot be empty")
    ∧ (sendMessage orchestratorResult "" "hi").status = 200
    ∧ (sendMessage orchestratorResult "" "hi").text
        = "माफ़ करें, अभी कुछ तकनीकी समस्या है। कृपया कुछ देर बाद फिर से कोशिश करें।"
    ∧ (sendMessage orchestratorResult "  " "hi").status = 200 :=
  ⟨rfl, rfl, rfl, rfl⟩

/-- C3 counterexample: when the orchestrator pipeline raises, the endpoint
does return HTTP 200 with intent `"error"`, but the payload's confidence is
the endpoint's hard-coded `0.95`, not `0.0`. -/
theorem error_payload_confidence_not_zero :
    (sendMessage (Except.ok (processQueryTop (Except.error "boom") "hi")) "karz" "hi").status = 200
    ∧ (sendMessage (Except.ok (processQueryTop (Except.error "boom") "hi")) "karz" "hi").intent
        = "error"
    ∧ (sendMessage (Except.ok (processQueryTop (Except.error "boom") "hi")) "karz" "hi").confidence
        = mkRat 95 100
    ∧ ¬ (sendMessage (Except.ok (processQueryTop (Except.error "boom") "hi")) "karz" "hi").confidence
        = 0 := by
  refine ⟨rfl, rfl, rfl, by decide⟩

/-- C3 amended: for every exception escaping the orchestrator pipeline and
every non-empty message, the endpoint returns HTTP 200 with intent
`"error"` and confidence `0.95` (the endpoint's hard-coded constant); the
orchestrator's own error payload carries confidence `0.0`, which the
endpoint discards. -/
theorem error_payload_intent_error (e message language : String) :
    pyStrip message ≠ "" →
    (sendMessage (Except.ok (processQueryTop (Except.error e) language)) message language).status
        = 200
    ∧ (sendMessage (Except.ok (processQueryTop (Except.error e) language)) message language).intent
        = "error"
    ∧ (sendMessage (Except.ok (processQueryTop (Except.error e) language))
        message language).confidence = 0.95
    ∧ (processQueryTop (Except.error e) language).confidence = 0 := by
  intro h
  by_cases hl : language = "hi" <;>
    simp [sendMessage, sendMessageBody, processQueryTop, getErrorResponse, hl, h,
      mkRat_ninetyfive_hundredths]

/-- C3 amended witness: a raising pipeline with message `"karz"` and
language `"hi"`. -/
theorem error_payload_intent_error_witness :
    (sendMessage (Except.ok (processQueryTop (Except.error "boom") "hi")) "karz" "hi").status = 200
    ∧ (sendMessage (Except.ok (processQueryTop (Except.error "boom") "hi")) "karz" "hi").intent
        = "error"
    ∧ (sendMessage (Except.ok (processQueryTop (Except.error "boom") "hi")) "karz" "hi").confidence
        = 0.95
    ∧ (processQueryTop (Except.error "boom") "hi").confidence = 0 :=
  error_payload_intent_error "boom" "karz" "hi" (by decide)

/-- C8: a user context with zero total remaining debt (in particular an
empty loan list) short-circuits the debt-forecast handler to the no-debt
congratulation before any division; and whenever the total debt is positive
the monthly payment is positive, so the guarded division
`months_to_freedom = current_debt / monthly_payment` is only taken with a
positive divisor. -/
theorem debt_forecast_no_div_by_zero (ctx : UserContext) (language : String)
    (now : Date) (d : ℚ) :
    (sumRemaining ctx.current_loans = 0 →
        handleDebtForecast ctx language now = noDebtResponse language)
    ∧ (0 < d → 0 < monthlyPayment d)
    ∧ (0 < d → monthsToFreedom d = qDiv d (monthlyPayment d)) := by
  have hp : 0 < d → 0 < monthlyPayment d := by
    intro hd
    rw [monthlyPayment, pyMin_eq]
    refine lt_min ?_ ?_
    · rw [qMul_eq, mkRat_four_tenths]
      norm_num [monthlyIncome]
    · rw [qMul_eq, mkRat_one_tenth]
      exact mul_pos hd (by norm_num)
  refine ⟨?_, hp, ?_⟩
  · intro h
    simp [handleDebtForecast, h]
  · intro hd
    rw [monthsToFreedom, if_pos (hp hd)]

/-- C8 witness: the empty-loan context receives the no-debt message, and the
mock debt of `35000` yields a positive monthly payment. -/
theorem debt_forecast_no_div_by_zero_witness :
    handleDebtForecast loamySoilContext "hi" ⟨2026, 1, 1⟩ = noDebtResponse "hi"
    ∧ 0 < monthlyPayment 35000 :=
  ⟨(debt_forecast_no_div_by_zero loamySoilContext "hi" ⟨2026, 1, 1⟩ 35000).1 (by decide),
   (debt_forecast_no_div_by_zero loamySoilContext "hi" ⟨2026, 1, 1⟩ 35000).2.1 (by decide)⟩

/-- C9 counterexample: the Finance advisor's output is not a pure function
of (query, userContext, language, static table): with identical arguments,
the debt-forecast reply rendered when the wall clock reads 2026-01-01
differs from the one rendered at 2026-04-01 (the projected debt-free month
moves). -/
theorem finance_clock_dependence_cex :
    financeProcess "karz" (mockUserContext "anonymous") "hi" ⟨2026, 1, 1⟩
      ≠ financeProcess "karz" (mockUserContext "anonymous") "hi" ⟨2026, 4, 1⟩ := by
  decide

/-- C9 amended: each advisor call is a pure function of (query, userContext,
language, static table, wall clock); off the clock-reading path — any query
not classified `debt_forecast`, or a context with zero total debt — the
Finance advisor's output is independent of the clock. -/
theorem finance_clock_independent_off_debt_path (query : String) (ctx : UserContext)
    (language : String) (d1 d2 : Date) :
    (analyzeFinanceQuery query ≠ "debt_forecast" ∨ sumRemaining ctx.current_loans = 0) →
    financeProcess query ctx language d1 = financeProcess query ctx language d2 := by
  intro h
  by_cases ht : analyzeFinanceQuery query = "debt_forecast"
  · rcases h with h | h
    · exact absurd ht h
    · simp [financeProcess, ht, handleDebtForecast, h]
  · simp [financeProcess, ht]

/-- C9 amended witness: a loan-recommendation query is answered identically
under two clocks more than a year apart. -/
theorem finance_clock_independent_witness :
    financeProcess "loan" (mockUserContext "anonymous") "hi" ⟨2026, 1, 1⟩
      = financeProcess "loan" (mockUserContext "anonymous") "hi" ⟨2027, 6, 15⟩ :=
  finance_clock_independent_off_debt_path "loan" (mockUserContext "anonymous") "hi"
    ⟨2026, 1, 1⟩ ⟨2027, 6, 15⟩ (Or.inl (by decide))

/-- C10: on the comprehensive path `process_query` sets `voice_ready` to
exactly the one-element list holding the full synthesized text; the
chunked (sentence/comma-split) `voice_ready` of `_process_for_voice` is
produced only on the LLM-fallback path. -/
theorem comprehensive_voice_ready_singleton (agentResult : String → Except String String)
    (aiResponse query language : String) :
    (processQuery agentResult (Except.ok aiResponse) query language).voice_ready =
      if isComprehensiveQuery query then
        [(processQuery agentResult (Except.ok aiResponse) query language).text]
      else processForVoice aiResponse := by
  rcases Bool.eq_false_or_eq_true (isComprehensiveQuery query) with h | h <;>
    simp [processQuery, getKrishiMitraResponse, h]

/-- C1: every crop-recommendation query hits the read of the never-assigned
`self.seasons` attribute inside `_get_suitable_crops`, which raises
`AttributeError` for every context, language and month; the advisor's
`except` then returns the apology string instead of the top-3 profit-ranked
crops — shown for end-to-end scenario 3's loamy-soil context in July and
for the orchestrator's mock context. -/
theorem crop_recommendation_attribute_bug :
    analyzeAgronomyQuery "crop" = "crop_recommendation"
    ∧ (∀ (ctx : UserContext) (language : String) (month : Nat),
        handleCropRecommendation ctx language month
          = Except.error "AttributeError: \x27AgronomyAgent\x27 object has no attribute \x27seasons\x27")
    ∧ agronomyProcess "crop" loamySoilContext "hi" 7 = agronomyErrorResponse "hi"
    ∧ agronomyProcess "crop" (mockUserContext "anonymous") "hi" 7 = agronomyErrorResponse "hi" :=
  ⟨rfl, fun _ _ _ => rfl, by decide, by decide⟩
